/- Verification development for the AMT10 quadrature encoder serial wrapper
   (reference/AMT10_quadrature_encoder.py).  The Python code is shallowly
   embedded: each method that the specification's claims mention is translated
   into an executable Lean function over an explicit state, with Python
   exceptions modelled as explicit outcome constructors and CPython string
   semantics (str.split, str.strip, int()) modelled by kernel-computable
   helpers.  Machine floats are modelled as exact rationals. -/
import Mathlib

namespace AMT10

/-- Python `pat in s` substring test. -/
def strContains (s pat : String) : Bool := decide (pat.toList <:+: s.toList)

/-- Worker for `pySplit`: accumulates the current field (reversed). -/
def splitChar (sep : Char) : List Char → List Char → List (List Char)
  | acc, [] => [acc.reverse]
  | acc, x :: xs =>
    if x = sep then acc.reverse :: splitChar sep [] xs else splitChar sep (x :: acc) xs

/-- Python `s.split(sep)` for a one-character separator: splits at every
occurrence, and the empty string yields `[""]`. -/
def pySplit (sep : Char) (s : String) : List String := (splitChar sep [] s.data).map String.mk

/-- Decimal value of a digit list. -/
def digitsVal (l : List Char) : Nat := l.foldl (fun n c => n * 10 + (c.toNat - 48)) 0

/-- Python `s.strip()` (as applied implicitly by `int(...)`). -/
def pyStrip (s : String) : List Char :=
  ((s.data.dropWhile Char.isWhitespace).reverse.dropWhile Char.isWhitespace).reverse

/-- Python `int(s)`: optional sign followed by at least one decimal digit,
surrounding whitespace tolerated; `none` models the `ValueError` raise. -/
def parseIntPy (s : String) : Option Int :=
  match pyStrip s with
  | '-' :: ds => if ds ≠ [] ∧ ds.all Char.isDigit then some (-(digitsVal ds : Int)) else none
  | '+' :: ds => if ds ≠ [] ∧ ds.all Char.isDigit then some ((digitsVal ds : Int)) else none
  | ds => if ds ≠ [] ∧ ds.all Char.isDigit then some ((digitsVal ds : Int)) else none

/-- Python `s.split(":")[-1]` (a split result is never empty). -/
def lastColon (s : String) : String := (pySplit ':' s).getLast?.getD ""

/-- Python `s.split(";")`. -/
def splitSemi (s : String) : List String := pySplit ';' s

/-- Python `s.split(";")[-2]` when it exists (`""` as a total default). -/
def idxSeg (v : String) : String := (splitSemi v).getD ((splitSemi v).length - 2) ""

/-- Python `s.split(";")[-1]`. -/
def cntSeg (v : String) : String := (splitSemi v).getD ((splitSemi v).length - 1) ""

/-- `int(decoder_data.split(";")[-2].split(":")[-1])`, line 121. -/
def parseIndex (v : String) : Option Int := parseIntPy (lastColon (idxSeg v))

/-- `int(decoder_data.split(";")[-1].split(":")[-1])`, lines 122/155/162. -/
def parseCount (v : String) : Option Int := parseIntPy (lastColon (cntSeg v))

/-- The mutable attributes of `DigitalEncoder` that `position()` reads or
writes (`__init__`, lines 44-61).  `_last_index` starts as the int `0` while
`index` starts as `None`, hence `Option Int` for both. -/
structure PState where
  val : Option String
  lastDeg : ℚ
  lastCount : Int
  lastIndex : Option Int
  lastData : Option String
  count : Int
  index : Option Int
  rawData : Option String
  deg : ℚ
  badReads : Nat
  cpr : ℚ
deriving DecidableEq

/-- What a call to `position()` does to the caller: return a
`(deg, count, index, raw_data)` tuple, or terminate the process via `exit`. -/
inductive POut
  | ret (deg : ℚ) (count : Int) (index : Option Int) (raw : Option String)
  | exit (code : Int)
deriving DecidableEq

/-- Lines 136-142: recompute `deg` from the current `_count`, refresh all the
`_last_*` attributes, and return the fresh tuple. -/
def publish (s : PState) : POut × PState :=
  let d : ℚ := (s.count : ℚ) / s.cpr * 360
  (POut.ret d s.count s.index s.rawData,
   { s with deg := d, lastDeg := d, lastCount := s.count,
            lastIndex := s.index, lastData := s.rawData })

/-- The `return self._last_deg, self._last_count, self._last_index,
self._last_data` tuple. -/
def retLast (s : PState) : POut :=
  POut.ret s.lastDeg s.lastCount s.lastIndex s.lastData

/-- `DigitalEncoder.position` (lines 102-148).  Control flow notes:
* `self._val is None` makes line 106 (`"ERROR" in decoder_data`) raise
  `TypeError`, caught at line 132 (`pass`), so execution falls through to the
  publish block at line 136 using the stale `_count`/`index`/`raw_data`.
* More than 3 `";"`-separated fields: `exit(-30)` (lines 110-112).
* A single field (no `";"`): `IndexError` at `[-2]`; line 125 runs
  `self.bad_reads =+ 1`, i.e. it ASSIGNS `+1`, then compares with 10.
* A non-integer field: `ValueError`; note line 121 may have already
  assigned `self.index` before line 122 raises. -/
def positionStep (s : PState) : POut × PState :=
  match s.val with
  | none => publish s
  | some v =>
    if strContains v "ERROR" then (retLast s, s)
    else if 3 < (splitSemi v).length then (POut.exit (-30), s)
    else if (splitSemi v).length < 2 then
      let s1 : PState := { s with badReads := 1 }
      if s1.badReads = 10 then (POut.exit (-1), s1) else (retLast s1, s1)
    else
      match parseIndex v with
      | none => (retLast s, s)
      | some i =>
        let s1 : PState := { s with index := some i }
        match parseCount v with
        | none => (retLast s1, s1)
        | some c => publish { s1 with count := c, rawData := some v }

/-- Attribute values set in `__init__` (lines 44-61), with the default
configuration `counts = COUNTS_PER_REV = 8192.0`. -/
def initPState : PState :=
  { val := none, lastDeg := 0, lastCount := 0, lastIndex := some 0, lastData := none,
    count := 0, index := none, rawData := none, deg := 0, badReads := 0, cpr := 8192 }

/-- Set `self._val` (as the reader thread does) and call `position()`. -/
def processFrame (s : PState) (v : Option String) : POut × PState :=
  positionStep { s with val := v }

/-- State of the `_read_encoder` background loop (lines 308-317):
`_continue_reading`, `error_count`, the shared `_val` slot, and whether the
thread has died from an uncaught exception. -/
structure LoopState where
  continueReading : Bool
  errorCount : Nat
  val : Option String
  crashed : Bool
deriving DecidableEq

/-- One iteration of `_read_encoder` on the raw line `raw`:
`self._val = readline()[:-2]`; an empty result is replaced by `None`, after
which `"ERROR" in self._val` raises `TypeError` and kills the thread;
otherwise each `ERROR`-bearing frame bumps `error_count` (never reset), and
hitting 5 clears `_continue_reading`. -/
def readStep (s : LoopState) (raw : String) : LoopState :=
  let v := raw.dropRight 2
  if v = "" then { s with val := none, crashed := true }
  else if strContains v "ERROR" then
    if s.errorCount + 1 = 5 then
      { s with val := some v, errorCount := s.errorCount + 1, continueReading := false }
    else { s with val := some v, errorCount := s.errorCount + 1 }
  else { s with val := some v }

/-- Run `_read_encoder` over a list of raw lines; the loop body runs only
while `_continue_reading` holds and the thread is alive. -/
def readLoop (s : LoopState) : List String → LoopState
  | [] => s
  | raw :: rest =>
    if s.continueReading && !s.crashed then readLoop (readStep s raw) rest else s

/-- Loop state when the thread starts (lines 46, 53, 61). -/
def initLoopState : LoopState :=
  { continueReading := true, errorCount := 0, val := none, crashed := false }

/-- Number of `ERROR`-bearing lines (after `[:-2]` stripping) in a stream. -/
def countErrorLines (lines : List String) : Nat :=
  (lines.filter (fun l => strContains (l.dropRight 2) "ERROR")).length

/-- Outcome of `initialize_MDR0` (lines 282-306). -/
inductive MOut
  | exited (code : Int)
  | exc
  | ok (v : String)
  | noMoreFrames
deriving DecidableEq

/-- `initialize_MDR0` body (lines 282-306) over the stream of raw lines the
channel will deliver.  Each iteration strips the line terminator, increments
`count`, and on `count == 150` calls `abort()` = close + `exit(-30)`.  On a
frame containing `MDR0`, `int(...)` may raise (uncaught `ValueError`, `exc`);
a parsed value other than 3 leads to `abort()`; otherwise the string value is
stored and the loop breaks. -/
def initMDR0Loop (count : Nat) : List String → MOut
  | [] => MOut.noMoreFrames
  | raw :: rest =>
    let v := raw.dropRight 2
    if count + 1 = 150 then MOut.exited (-30)
    else if strContains v "MDR0" then
      match parseIntPy (lastColon v) with
      | none => MOut.exc
      | some k => if k ≠ 3 then MOut.exited (-30) else MOut.ok (lastColon v)
    else initMDR0Loop (count + 1) rest

/-- Outcome of `clear_encoder` (lines 150-163). -/
inductive ClrOut
  | cleared
  | unconfirmed
  | exc
  | noMoreFrames
deriving DecidableEq

/-- The `while c > 1000 or c < -1000` loop of `clear_encoder` (lines 156-163).
The attempt counter is checked before each read; `int(...)` on a frame whose
trailing field is not an integer raises an uncaught `ValueError` (`exc`). -/
def clearLoop (c : Int) (count : Nat) : List String → ClrOut
  | [] =>
    if -1000 ≤ c ∧ c ≤ 1000 then ClrOut.cleared
    else if count + 1 = 150 then ClrOut.unconfirmed
    else ClrOut.noMoreFrames
  | raw :: rest =>
    if -1000 ≤ c ∧ c ≤ 1000 then ClrOut.cleared
    else if count + 1 = 150 then ClrOut.unconfirmed
    else
      match parseCount (raw.dropRight 2) with
      | none => ClrOut.exc
      | some c2 => clearLoop c2 (count + 1) rest

/-- `clear_encoder` (lines 150-163): one unconditional read and parse of the
trailing `Count` field, then the bounded settle loop. -/
def clearEncoder : List String → ClrOut
  | [] => ClrOut.noMoreFrames
  | raw :: rest =>
    match parseCount (raw.dropRight 2) with
    | none => ClrOut.exc
    | some c => clearLoop c 0 rest

/-- Outcome of `read_MDR0` / `read_STR`; the `Nat` component of the loop
models how many frames were successfully read. -/
inductive ROut
  | done (v : Option Int)
  | exc
  | noMoreFrames
deriving DecidableEq

/-- `read_MDR0` (lines 223-249).  On `count == 150` the code calls
`self.close()` (which merely closes the port: during initialization the
`begin_reading.join()` inside `close` raises and is swallowed) and the loop
CONTINUES; the next `readline()` on the closed port raises an uncaught
transport exception (`exc`).  A tagged frame whose value fails `int(...)`
also closes the port and breaks, returning with no value stored. -/
def readMDR0Loop (closed : Bool) (count : Nat) : List String → ROut × Nat
  | [] => (ROut.noMoreFrames, 0)
  | raw :: rest =>
    if closed then (ROut.exc, 0)
    else
      let v := raw.dropRight 2
      let closed2 := closed || decide (count + 1 = 150)
      if strContains v "MDR0" then
        match parseIntPy (lastColon v) with
        | some k => (ROut.done (some k), 1)
        | none => (ROut.done none, 1)
      else
        let r := readMDR0Loop closed2 (count + 1) rest
        (r.1, r.2 + 1)

/-- `read_MDR0` entry point. -/
def readMDR0 (lines : List String) : ROut × Nat := readMDR0Loop false 0 lines

/-- `read_STR` (lines 251-280): identical control structure with tag `STR`
(the power-loss bit test at line 270 only logs and changes no state). -/
def readSTRLoop (closed : Bool) (count : Nat) : List String → ROut × Nat
  | [] => (ROut.noMoreFrames, 0)
  | raw :: rest =>
    if closed then (ROut.exc, 0)
    else
      let v := raw.dropRight 2
      let closed2 := closed || decide (count + 1 = 150)
      if strContains v "STR" then
        match parseIntPy (lastColon v) with
        | some k => (ROut.done (some k), 1)
        | none => (ROut.done none, 1)
      else
        let r := readSTRLoop closed2 (count + 1) rest
        (r.1, r.2 + 1)

/-- `read_STR` entry point. -/
def readSTR (lines : List String) : ROut × Nat := readSTRLoop false 0 lines

/-- The `_last_*` attributes that form the published sample. -/
def published (s : PState) : ℚ × Int × Option Int × Option String :=
  (s.lastDeg, s.lastCount, s.lastIndex, s.lastData)

/-- The angle bookkeeping invariant: both the published and the scratch angle
are derived from their count by `(count / counts_per_rev) * 360.0`. -/
def Consistent (s : PState) : Prop :=
  s.lastDeg = (s.lastCount : ℚ) / s.cpr * 360 ∧ s.deg = (s.count : ℚ) / s.cpr * 360

/-- A returned tuple's angle is derived from its count by the formula. -/
def angleDerived : POut → ℚ → Prop
  | POut.ret d c _ _, q => d = (c : ℚ) / q * 360
  | POut.exit _, _ => True

lemma positionStep_none (s : PState) (h : s.val = none) : positionStep s = publish s := by
  simp [positionStep, h]

lemma positionStep_error (s : PState) (v : String) (hv : s.val = some v)
    (he : strContains v "ERROR" = true) : positionStep s = (retLast s, s) := by
  simp [positionStep, hv, he]

lemma positionStep_long (s : PState) (v : String) (hv : s.val = some v)
    (he : strContains v "ERROR" = false) (hl : 3 < (splitSemi v).length) :
    positionStep s = (POut.exit (-30), s) := by
  simp [positionStep, hv, he, hl]

lemma positionStep_short (s : PState) (v : String) (hv : s.val = some v)
    (he : strContains v "ERROR" = false) (hl : (splitSemi v).length < 2) :
    positionStep s = (retLast s, { s with badReads := 1 }) := by
  have h3 : ¬ 3 < (splitSemi v).length := by omega
  simp [positionStep, hv, he, h3, hl, retLast]

lemma positionStep_noIdx (s : PState) (v : String) (hv : s.val = some v)
    (he : strContains v "ERROR" = false) (h2 : 2 ≤ (splitSemi v).length)
    (h3 : (splitSemi v).length ≤ 3) (hi : parseIndex v = none) :
    positionStep s = (retLast s, s) := by
  have h3n : ¬ 3 < (splitSemi v).length := by omega
  have h2n : ¬ (splitSemi v).length < 2 := by omega
  simp [positionStep, hv, he, h3n, h2n, hi]

lemma positionStep_noCnt (s : PState) (v : String) (i : Int) (hv : s.val = some v)
    (he : strContains v "ERROR" = false) (h2 : 2 ≤ (splitSemi v).length)
    (h3 : (splitSemi v).length ≤ 3) (hi : parseIndex v = some i)
    (hc : parseCount v = none) :
    positionStep s = (retLast s, { s with index := some i }) := by
  have h3n : ¬ 3 < (splitSemi v).length := by omega
  have h2n : ¬ (splitSemi v).length < 2 := by omega
  simp [positionStep, hv, he, h3n, h2n, hi, hc, retLast]

lemma positionStep_valid (s : PState) (v : String) (i c : Int) (hv : s.val = some v)
    (he : strContains v "ERROR" = false) (h2 : 2 ≤ (splitSemi v).length)
    (h3 : (splitSemi v).length ≤ 3) (hi : parseIndex v = some i)
    (hc : parseCount v = some c) :
    positionStep s = publish { s with index := some i, count := c, rawData := some v } := by
  have h3n : ¬ 3 < (splitSemi v).length := by omega
  have h2n : ¬ (splitSemi v).length < 2 := by omega
  simp [positionStep, hv, he, h3n, h2n, hi, hc]

lemma positionStep_valid_fst (s : PState) (v : String) (i c : Int) (hv : s.val = some v)
    (he : strContains v "ERROR" = false) (h2 : 2 ≤ (splitSemi v).length)
    (h3 : (splitSemi v).length ≤ 3) (hi : parseIndex v = some i)
    (hc : parseCount v = some c) :
    (positionStep s).1 = POut.ret ((c : ℚ) / s.cpr * 360) c (some i) (some v) := by
  rw [positionStep_valid s v i c hv he h2 h3 hi hc]
  simp [publish]

lemma readLoop_stopped (e : Nat) (w : Option String) (b : Bool) (lines : List String) :
    readLoop { continueReading := false, errorCount := e, val := w, crashed := b } lines =
      { continueReading := false, errorCount := e, val := w, crashed := b } := by
  cases lines <;> simp [readLoop]

lemma readLoop_trip (lines : List String) : ∀ (e : Nat) (w : Option String),
    (∀ l ∈ lines, l.dropRight 2 ≠ "") → e < 5 →
    (((readLoop { continueReading := true, errorCount := e, val := w, crashed := false }
        lines).continueReading = false) ↔ 5 ≤ e + countErrorLines lines) := by
  induction lines with
  | nil =>
    intro e w _ he
    simp [readLoop, countErrorLines]
    omega
  | cons raw rest ih =>
    intro e w hne he
    have hraw : raw.dropRight 2 ≠ "" := hne raw (List.mem_cons_self raw rest)
    have hrest : ∀ l ∈ rest, l.dropRight 2 ≠ "" := fun l hl => hne l (List.mem_cons_of_mem _ hl)
    by_cases herr : strContains (raw.dropRight 2) "ERROR" = true
    · have hcnt : countErrorLines (raw :: rest) = countErrorLines rest + 1 := by
        simp [countErrorLines, List.filter_cons, herr]
      by_cases h5 : e + 1 = 5
      · have hstep : readStep ⟨true, e, w, false⟩ raw =
            ⟨false, e + 1, some (raw.dropRight 2), false⟩ := by
          simp [readStep, hraw, herr, h5]
        rw [readLoop]
        simp only [Bool.and_self, Bool.not_false, if_true, hstep]
        rw [readLoop_stopped]
        simp [hcnt]
        omega
      · have hstep : readStep ⟨true, e, w, false⟩ raw =
            ⟨true, e + 1, some (raw.dropRight 2), false⟩ := by
          simp [readStep, hraw, herr, h5]
        rw [readLoop]
        simp only [Bool.and_self, Bool.not_false, if_true, hstep]
        rw [ih (e + 1) (some (raw.dropRight 2)) hrest (by omega)]
        rw [hcnt]
        omega
    · have herr' : strContains (raw.dropRight 2) "ERROR" = false := by
        simpa using herr
      have hcnt : countErrorLines (raw :: rest) = countErrorLines rest := by
        simp [countErrorLines, List.filter_cons, herr']
      have hstep : readStep ⟨true, e, w, false⟩ raw =
          ⟨true, e, some (raw.dropRight 2), false⟩ := by
        simp [readStep, hraw, herr']
      rw [readLoop]
      simp only [Bool.and_self, Bool.not_false, if_true, hstep]
      rw [ih e (some (raw.dropRight 2)) hrest he, hcnt]

lemma initMDR0Loop_mismatch (count : Nat) (raw : String) (rest : List String) (k : Int)
    (h150 : count + 1 ≠ 150) (htag : strContains (raw.dropRight 2) "MDR0" = true)
    (hk : parseIntPy (lastColon (raw.dropRight 2)) = some k) (hne : k ≠ 3) :
    initMDR0Loop count (raw :: rest) = MOut.exited (-30) := by
  simp [initMDR0Loop, h150, htag, hk, hne]

lemma clearLoop_noExc (lines : List String) : ∀ (c : Int) (count : Nat),
    (∀ l ∈ lines, (parseCount (l.dropRight 2)).isSome = true) →
    clearLoop c count lines ≠ ClrOut.exc := by
  induction lines with
  | nil =>
    intro c count _
    simp only [clearLoop]
    split_ifs <;> simp
  | cons raw rest ih =>
    intro c count hp
    have hraw : (parseCount (raw.dropRight 2)).isSome = true :=
      hp raw (List.mem_cons_self raw rest)
    have hrest : ∀ l ∈ rest, (parseCount (l.dropRight 2)).isSome = true :=
      fun l hl => hp l (List.mem_cons_of_mem _ hl)
    simp only [clearLoop]
    split_ifs
    · simp
    · simp
    · cases hc2 : parseCount (raw.dropRight 2) with
      | none => rw [hc2] at hraw; simp at hraw
      | some c2 => simp only [hc2]; exact ih c2 (count + 1) hrest

lemma clearLoop_take (lines : List String) : ∀ (c : Int) (count : Nat), count < 150 →
    clearLoop c count lines = clearLoop c count (lines.take (149 - count)) := by
  induction lines with
  | nil => intro c count _; simp
  | cons raw rest ih =>
    intro c count hcnt
    by_cases h149 : 149 - count = 0
    · have h150 : count + 1 = 150 := by omega
      rw [h149]
      simp only [List.take_zero, clearLoop, h150]
      split_ifs <;> rfl
    · have htake : (raw :: rest).take (149 - count) = raw :: rest.take (148 - count) := by
        cases hn : 149 - count with
        | zero => omega
        | succ m =>
          have : m = 148 - count := by omega
          simp [List.take, this]
      rw [htake]
      simp only [clearLoop]
      split_ifs
      · rfl
      · rfl
      · cases parseCount (raw.dropRight 2) with
        | none => rfl
        | some c2 =>
          have : 148 - count = 149 - (count + 1) := by omega
          rw [this]
          exact ih c2 (count + 1) (by omega)

lemma readMDR0Loop_cons (closed : Bool) (count : Nat) (raw : String) (rest : List String) :
    readMDR0Loop closed count (raw :: rest) =
      if closed then (ROut.exc, 0)
      else if strContains (raw.dropRight 2) "MDR0" then
        (match parseIntPy (lastColon (raw.dropRight 2)) with
         | some k => (ROut.done (some k), 1)
         | none => (ROut.done none, 1))
      else
        ((readMDR0Loop (closed || decide (count + 1 = 150)) (count + 1) rest).1,
         (readMDR0Loop (closed || decide (count + 1 = 150)) (count + 1) rest).2 + 1) := rfl

lemma readMDR0Loop_closed_snd (lines : List String) (count : Nat) :
    (readMDR0Loop true count lines).2 = 0 := by
  cases lines <;> simp [readMDR0Loop]

lemma readMDR0Loop_closed_exc (lines : List String) (count : Nat) (h : lines ≠ []) :
    (readMDR0Loop true count lines).1 = ROut.exc := by
  cases lines with
  | nil => simp at h
  | cons raw rest => simp [readMDR0Loop]

lemma readMDR0Loop_consumed (lines : List String) : ∀ count : Nat, count < 150 →
    (readMDR0Loop false count lines).2 ≤ 150 - count := by
  induction lines with
  | nil => intro count _; simp [readMDR0Loop]
  | cons raw rest ih =>
    intro count hcnt
    rw [readMDR0Loop_cons, if_neg (by simp)]
    by_cases htag : strContains (raw.dropRight 2) "MDR0" = true
    · rw [if_pos htag]
      cases hk : parseIntPy (lastColon (raw.dropRight 2)) <;> · simp [hk]; omega
    · rw [if_neg htag]
      by_cases h150 : count + 1 = 150
      · have hcl : (false || decide (count + 1 = 150)) = true := by simp [h150]
        rw [hcl, readMDR0Loop_closed_snd]
        omega
      · have hcl : (false || decide (count + 1 = 150)) = false := by simp [h150]
        rw [hcl]
        have := ih (count + 1) (by omega)
        simp only []
        omega

lemma readMDR0Loop_exhaust (lines : List String) : ∀ count : Nat, count < 150 →
    (∀ l ∈ lines, strContains (l.dropRight 2) "MDR0" = false) →
    150 - count < lines.length →
    (readMDR0Loop false count lines).1 = ROut.exc := by
  induction lines with
  | nil =>
    intro count hcnt _ hlen
    simp at hlen
  | cons raw rest ih =>
    intro count hcnt hno hlen
    have htag : strContains (raw.dropRight 2) "MDR0" = false :=
      hno raw (List.mem_cons_self raw rest)
    have hrest : ∀ l ∈ rest, strContains (l.dropRight 2) "MDR0" = false :=
      fun l hl => hno l (List.mem_cons_of_mem _ hl)
    rw [readMDR0Loop_cons, if_neg (by simp), htag, if_neg (by simp)]
    by_cases h150 : count + 1 = 150
    · have hne : rest ≠ [] := by
        intro hnil
        rw [hnil] at hlen
        simp at hlen
        omega
      have hcl : (false || decide (count + 1 = 150)) = true := by simp [h150]
      rw [hcl]
      exact readMDR0Loop_closed_exc rest (count + 1) hne
    · have hcl : (false || decide (count + 1 = 150)) = false := by simp [h150]
      rw [hcl]
      apply ih (count + 1) (by omega) hrest
      simp at hlen
      omega

lemma readSTRLoop_cons (closed : Bool) (count : Nat) (raw : String) (rest : List String) :
    readSTRLoop closed count (raw :: rest) =
      if closed then (ROut.exc, 0)
      else if strContains (raw.dropRight 2) "STR" then
        (match parseIntPy (lastColon (raw.dropRight 2)) with
         | some k => (ROut.done (some k), 1)
         | none => (ROut.done none, 1))
      else
        ((readSTRLoop (closed || decide (count + 1 = 150)) (count + 1) rest).1,
         (readSTRLoop (closed || decide (count + 1 = 150)) (count + 1) rest).2 + 1) := rfl

lemma readSTRLoop_closed_snd (lines : List String) (count : Nat) :
    (readSTRLoop true count lines).2 = 0 := by
  cases lines <;> simp [readSTRLoop]

lemma readSTRLoop_closed_exc (lines : List String) (count : Nat) (h : lines ≠ []) :
    (readSTRLoop true count lines).1 = ROut.exc := by
  cases lines with
  | nil => simp at h
  | cons raw rest => simp [readSTRLoop]

lemma readSTRLoop_consumed (lines : List String) : ∀ count : Nat, count < 150 →
    (readSTRLoop false count lines).2 ≤ 150 - count := by
  induction lines with
  | nil => intro count _; simp [readSTRLoop]
  | cons raw rest ih =>
    intro count hcnt
    rw [readSTRLoop_cons, if_neg (by simp)]
    by_cases htag : strContains (raw.dropRight 2) "STR" = true
    · rw [if_pos htag]
      cases hk : parseIntPy (lastColon (raw.dropRight 2)) <;> · simp [hk]; omega
    · rw [if_neg htag]
      by_cases h150 : count + 1 = 150
      · have hcl : (false || decide (count + 1 = 150)) = true := by simp [h150]
        rw [hcl, readSTRLoop_closed_snd]
        omega
      · have hcl : (false || decide (count + 1 = 150)) = false := by simp [h150]
        rw [hcl]
        have := ih (count + 1) (by omega)
        omega

lemma readSTRLoop_exhaust (lines : List String) : ∀ count : Nat, count < 150 →
    (∀ l ∈ lines, strContains (l.dropRight 2) "STR" = false) →
    150 - count < lines.length →
    (readSTRLoop false count lines).1 = ROut.exc := by
  induction lines with
  | nil =>
    intro count hcnt _ hlen
    simp at hlen
  | cons raw rest ih =>
    intro count hcnt hno hlen
    have htag : strContains (raw.dropRight 2) "STR" = false :=
      hno raw (List.mem_cons_self raw rest)
    have hrest : ∀ l ∈ rest, strContains (l.dropRight 2) "STR" = false :=
      fun l hl => hno l (List.mem_cons_of_mem _ hl)
    rw [readSTRLoop_cons, if_neg (by simp), htag, if_neg (by simp)]
    by_cases h150 : count + 1 = 150
    · have hne : rest ≠ [] := by
        intro hnil
        rw [hnil] at hlen
        simp at hlen
        omega
      have hcl : (false || decide (count + 1 = 150)) = true := by simp [h150]
      rw [hcl]
      exact readSTRLoop_closed_exc rest (count + 1) hne
    · have hcl : (false || decide (count + 1 = 150)) = false := by simp [h150]
      rw [hcl]
      apply ih (count + 1) (by omega) hrest
      simp at hlen
      omega

lemma positionStep_ret_or_exit30 (s : PState) :
    (∃ d c i r, (positionStep s).1 = POut.ret d c i r) ∨
    ((positionStep s).1 = POut.exit (-30) ∧
      ∃ v, s.val = some v ∧ strContains v "ERROR" = false ∧ 3 < (splitSemi v).length) := by
  cases hval : s.val with
  | none =>
    left
    rw [positionStep_none s hval]
    exact ⟨_, _, _, _, rfl⟩
  | some v =>
    by_cases herr : strContains v "ERROR" = true
    · left
      rw [positionStep_error s v hval herr]
      exact ⟨_, _, _, _, rfl⟩
    · have herr' : strContains v "ERROR" = false := by simpa using herr
      by_cases hlong : 3 < (splitSemi v).length
      · right
        rw [positionStep_long s v hval herr' hlong]
        exact ⟨rfl, v, rfl, herr', hlong⟩
      · by_cases hshort : (splitSemi v).length < 2
        · left
          rw [positionStep_short s v hval herr' hshort]
          exact ⟨_, _, _, _, rfl⟩
        · have h2 : 2 ≤ (splitSemi v).length := by omega
          have h3 : (splitSemi v).length ≤ 3 := by omega
          cases hi : parseIndex v with
          | none =>
            left
            rw [positionStep_noIdx s v hval herr' h2 h3 hi]
            exact ⟨_, _, _, _, rfl⟩
          | some i =>
            cases hc : parseCount v with
            | none =>
              left
              rw [positionStep_noCnt s v i hval herr' h2 h3 hi hc]
              exact ⟨_, _, _, _, rfl⟩
            | some c =>
              left
              rw [positionStep_valid s v i c hval herr' h2 h3 hi hc]
              exact ⟨_, _, _, _, rfl⟩

/-- Claim C1 (amended): the `error_count` of `_read_encoder` is CUMULATIVE —
it is never reset by successfully readable frames — so the loop stops exactly
when the stream contains 5 `ERROR` frames in total, consecutive or not; and
after the trip `position()` (whose `_val` then holds an `ERROR` frame) still
returns the last-known tuple.  No separate fault flag is surfaced to
`position()` callers. -/
theorem claim_C1_amended :
    (∀ lines : List String, (∀ l ∈ lines, l.dropRight 2 ≠ "") →
      (((readLoop initLoopState lines).continueReading = false) ↔
        5 ≤ countErrorLines lines)) ∧
    (∀ (s : PState) (v : String), s.val = some v → strContains v "ERROR" = true →
      (positionStep s).1 = retLast s) := by
  constructor
  · intro lines h
    have := readLoop_trip lines 0 none h (by omega)
    simpa [initLoopState] using this
  · intro s v h1 h2
    rw [positionStep_error s v h1 h2]

/-- Claim C1 (counterexample): a stream whose 5 `ERROR` frames are each
separated by a valid telemetry frame — so no two `ErrorToken` decodes are
consecutive — still trips the circuit breaker (`_continue_reading` ends up
`False`), contradicting "error frames separated by successfully decoded
frames do not trip the breaker". -/
theorem claim_C1_counterexample :
    (readLoop initLoopState ["ERROR\r\n", ";Index:1;Count:1\r\n", "ERROR\r\n",
      ";Index:1;Count:1\r\n", "ERROR\r\n", ";Index:1;Count:1\r\n", "ERROR\r\n",
      ";Index:1;Count:1\r\n", "ERROR\r\n"]).continueReading = false := by decide

/-- Claim C1 (witness): five `ERROR` frames trip the loop, and with an
`ERROR` frame in `_val` the `position()` call returns the last-known tuple. -/
theorem claim_C1_witness :
    (((readLoop initLoopState (List.replicate 5 "ERROR\r\n")).continueReading = false) ↔
      5 ≤ countErrorLines (List.replicate 5 "ERROR\r\n")) ∧
    (positionStep { initPState with val := some "ERROR" }).1 =
      retLast { initPState with val := some "ERROR" } :=
  ⟨claim_C1_amended.1 (List.replicate 5 "ERROR\r\n") (by decide),
   claim_C1_amended.2 { initPState with val := some "ERROR" } "ERROR" rfl (by decide)⟩

/-- Claim C2: the claim (from the spec) is that a timed-out read — an empty
frame — records no error and the loop continues.  In the code, the empty
result of `readline()[:-2]` is replaced by `None` (line 312), after which
line 313 evaluates `"ERROR" in None`, raising an uncaught `TypeError` that
kills the reader thread: the loop does NOT continue.  This theorem evaluates
the embedded loop body at the failing input (the empty line a timeout
yields). -/
theorem claim_C2_timeout_crash :
    (readStep initLoopState "").crashed = true ∧
    (readStep initLoopState "").val = none ∧
    (readStep initLoopState "").continueReading = true := by decide

/-- Claim C3 (amended): a frame whose `;`-split has 2 or 3 segments is
decoded solely from its last two segments; but a frame with MORE than 3
segments (e.g. concatenated lines) does not produce a Sample or a per-frame
error — `position()` terminates the whole process with `exit(-30)`
(lines 110-112). -/
theorem claim_C3_amended :
    (∀ (s : PState) (v : String) (i c : Int), s.val = some v →
      strContains v "ERROR" = false → 2 ≤ (splitSemi v).length →
      (splitSemi v).length ≤ 3 → parseIndex v = some i → parseCount v = some c →
      (positionStep s).1 = POut.ret ((c : ℚ) / s.cpr * 360) c (some i) (some v)) ∧
    (∀ (s : PState) (v : String), s.val = some v → strContains v "ERROR" = false →
      3 < (splitSemi v).length → (positionStep s).1 = POut.exit (-30)) := by
  constructor
  · intro s v i c h1 h2 h3 h4 h5 h6
    exact positionStep_valid_fst s v i c h1 h2 h3 h4 h5 h6
  · intro s v h1 h2 h3
    rw [positionStep_long s v h1 h2 h3]

/-- Claim C3 (counterexample): the frame `";;Index:1;Count:2"` has extra
earlier (empty) segments and a well-shaped trailing `Index:`/`Count:` pair,
yet `position()` exits the process with code -30 instead of decoding it. -/
theorem claim_C3_counterexample :
    (positionStep { initPState with val := some ";;Index:1;Count:2" }).1 =
      POut.exit (-30) := by decide

/-- Claim C3 (witness): a 3-segment frame with a stray leading segment is
decoded from its last two segments; a 4-segment frame exits. -/
theorem claim_C3_witness :
    ((positionStep { initPState with val := some "junk;Index:7;Count:8192" }).1 =
      POut.ret (((8192 : Int) : ℚ) /
        ({ initPState with val := some "junk;Index:7;Count:8192" } : PState).cpr * 360)
        8192 (some 7) (some "junk;Index:7;Count:8192")) ∧
    ((positionStep { initPState with val := some ";a;Index:1;Count:2" }).1 =
      POut.exit (-30)) :=
  ⟨claim_C3_amended.1 { initPState with val := some "junk;Index:7;Count:8192" }
    "junk;Index:7;Count:8192" 7 8192 rfl (by decide) (by decide) (by decide)
    (by decide) (by decide),
   claim_C3_amended.2 { initPState with val := some ";a;Index:1;Count:2" }
    ";a;Index:1;Count:2" rfl (by decide) (by decide)⟩

/-- Claim C4 (amended): ERROR-bearing, too-few-fields (`IndexError`) and
non-numeric (`ValueError`) frames leave the published `_last_*` tuple
unchanged and return it; a valid frame makes `position()` reflect exactly
that frame.  However an EMPTY/absent frame (`_val is None`) does not leave
the published tuple unchanged: the swallowed `TypeError` falls through to the
publish block, which rewrites the `_last_*` tuple from the internal scratch
fields (`_count`, `index`, `raw_data`) — and `index` may hold the index of an
earlier partially-parsed bad frame. -/
theorem claim_C4_amended :
    (∀ (s : PState) (v : String), s.val = some v → strContains v "ERROR" = true →
      published (positionStep s).2 = published s ∧ (positionStep s).1 = retLast s) ∧
    (∀ (s : PState) (v : String), s.val = some v → strContains v "ERROR" = false →
      (splitSemi v).length < 2 →
      published (positionStep s).2 = published s ∧ (positionStep s).1 = retLast s) ∧
    (∀ (s : PState) (v : String), s.val = some v → strContains v "ERROR" = false →
      2 ≤ (splitSemi v).length → (splitSemi v).length ≤ 3 →
      (parseIndex v = none ∨ parseCount v = none) →
      published (positionStep s).2 = published s ∧ (positionStep s).1 = retLast s) ∧
    (∀ (s : PState) (v : String) (i c : Int), s.val = some v →
      strContains v "ERROR" = false → 2 ≤ (splitSemi v).length →
      (splitSemi v).length ≤ 3 → parseIndex v = some i → parseCount v = some c →
      (positionStep s).1 = POut.ret ((c : ℚ) / s.cpr * 360) c (some i) (some v) ∧
      published (positionStep s).2 = ((c : ℚ) / s.cpr * 360, c, some i, some v)) ∧
    (∀ s : PState, s.val = none →
      published (positionStep s).2 =
        ((s.count : ℚ) / s.cpr * 360, s.count, s.index, s.rawData)) := by
  refine ⟨?_, ?_, ?_, ?_, ?_⟩
  · intro s v h1 h2
    rw [positionStep_error s v h1 h2]
    exact ⟨rfl, rfl⟩
  · intro s v h1 h2 h3
    rw [positionStep_short s v h1 h2 h3]
    constructor
    · simp [published]
    · rfl
  · intro s v h1 h2 h3 h4 h5
    cases hi : parseIndex v with
    | none =>
      rw [positionStep_noIdx s v h1 h2 h3 h4 hi]
      exact ⟨rfl, rfl⟩
    | some i =>
      rcases h5 with h5 | h5
      · rw [h5] at hi
        exact absurd hi (by simp)
      · rw [positionStep_noCnt s v i h1 h2 h3 h4 hi h5]
        constructor
        · simp [published]
        · rfl
  · intro s v i c h1 h2 h3 h4 h5 h6
    rw [positionStep_valid s v i c h1 h2 h3 h4 h5 h6]
    constructor
    · simp [publish]
    · simp [publish, published]
  · intro s h
    rw [positionStep_none s h]
    simp [publish, published]

/-- Claim C4 (counterexample): after a valid frame `";Index:1;Count:8192"`
and a partially-parsed non-numeric frame `";Index:2;Count:x"` (which assigns
`self.index = 2` before the `ValueError`), the published index is still 1;
processing a frame that fails to decode — the empty/absent frame — then
CHANGES the published sample: its index becomes 2. -/
theorem claim_C4_counterexample :
    ((processFrame (processFrame initPState (some ";Index:1;Count:8192")).2
        (some ";Index:2;Count:x")).2.lastIndex = some 1) ∧
    ((processFrame (processFrame (processFrame initPState
        (some ";Index:1;Count:8192")).2 (some ";Index:2;Count:x")).2
        none).2.lastIndex = some 2) := by decide

/-- Claim C4 (witness): the unchanged-tuple conjuncts applied at concrete
ERROR, short, non-numeric and valid frames. -/
theorem claim_C4_witness :
    (published (positionStep { initPState with val := some "xERRORy" }).2 =
        published { initPState with val := some "xERRORy" } ∧
      (positionStep { initPState with val := some "xERRORy" }).1 =
        retLast { initPState with val := some "xERRORy" }) ∧
    (published (positionStep { initPState with val := some "garbage" }).2 =
        published { initPState with val := some "garbage" } ∧
      (positionStep { initPState with val := some "garbage" }).1 =
        retLast { initPState with val := some "garbage" }) ∧
    (published (positionStep { initPState with val := some ";Index:9;Count:zz" }).2 =
        published { initPState with val := some ";Index:9;Count:zz" } ∧
      (positionStep { initPState with val := some ";Index:9;Count:zz" }).1 =
        retLast { initPState with val := some ";Index:9;Count:zz" }) :=
  ⟨claim_C4_amended.1 { initPState with val := some "xERRORy" } "xERRORy" rfl (by decide),
   claim_C4_amended.2.1 { initPState with val := some "garbage" } "garbage" rfl
     (by decide) (by decide),
   claim_C4_amended.2.2.1 { initPState with val := some ";Index:9;Count:zz" }
     ";Index:9;Count:zz" rfl (by decide) (by decide) (by decide)
     (Or.inr (by decide))⟩

/-- Claim C5: for every valid telemetry frame, `position()` returns a tuple
whose angle equals `(count / counts_per_rev) * 360.0` for the parsed count;
and the angle bookkeeping invariant (every stored or returned angle is
derived from its source count by the formula) is preserved by every
`position()` call. -/
theorem claim_C5_angle_formula :
    (∀ (s : PState) (v : String) (i c : Int), s.val = some v →
      strContains v "ERROR" = false → 2 ≤ (splitSemi v).length →
      (splitSemi v).length ≤ 3 → parseIndex v = some i → parseCount v = some c →
      (positionStep s).1 = POut.ret ((c : ℚ) / s.cpr * 360) c (some i) (some v)) ∧
    (∀ s : PState, Consistent s →
      angleDerived (positionStep s).1 s.cpr ∧ Consistent (positionStep s).2) := by
  constructor
  · intro s v i c h1 h2 h3 h4 h5 h6
    exact positionStep_valid_fst s v i c h1 h2 h3 h4 h5 h6
  · intro s hc
    cases hval : s.val with
    | none =>
      rw [positionStep_none s hval]
      constructor
      · simp [publish, angleDerived]
      · simp [publish, Consistent]
    | some v =>
      by_cases herr : strContains v "ERROR" = true
      · rw [positionStep_error s v hval herr]
        exact ⟨hc.1, hc⟩
      · have herr' : strContains v "ERROR" = false := by simpa using herr
        by_cases hlong : 3 < (splitSemi v).length
        · rw [positionStep_long s v hval herr' hlong]
          exact ⟨trivial, hc⟩
        · by_cases hshort : (splitSemi v).length < 2
          · rw [positionStep_short s v hval herr' hshort]
            refine ⟨hc.1, ?_⟩
            simp only [Consistent] at hc ⊢
            simpa using hc
          · have h2 : 2 ≤ (splitSemi v).length := by omega
            have h3 : (splitSemi v).length ≤ 3 := by omega
            cases hi : parseIndex v with
            | none =>
              rw [positionStep_noIdx s v hval herr' h2 h3 hi]
              exact ⟨hc.1, hc⟩
            | some i =>
              cases hcn : parseCount v with
              | none =>
                rw [positionStep_noCnt s v i hval herr' h2 h3 hi hcn]
                refine ⟨hc.1, ?_⟩
                simp only [Consistent] at hc ⊢
                simpa using hc
              | some c =>
                rw [positionStep_valid s v i c hval herr' h2 h3 hi hcn]
                constructor
                · simp [publish, angleDerived]
                · simp [publish, Consistent]

/-- Claim C5 (witness): the formula conjunct at `";Index:3;Count:4096"` and
the invariant conjunct at the initial state. -/
theorem claim_C5_witness :
    ((positionStep { initPState with val := some ";Index:3;Count:4096" }).1 =
      POut.ret (((4096 : Int) : ℚ) /
        ({ initPState with val := some ";Index:3;Count:4096" } : PState).cpr * 360)
        4096 (some 3) (some ";Index:3;Count:4096")) ∧
    (angleDerived (positionStep initPState).1 initPState.cpr ∧
      Consistent (positionStep initPState).2) :=
  ⟨claim_C5_angle_formula.1 { initPState with val := some ";Index:3;Count:4096" }
    ";Index:3;Count:4096" 3 4096 rfl (by decide) (by decide) (by decide)
    (by decide) (by decide),
   claim_C5_angle_formula.2 initPState (by simp [Consistent, initPState])⟩

/-- Claim C6 (amended): `position()` is a pure state transition (no I/O) that
NEVER returns an absent/"none" value: every call either returns a 4-tuple or
terminates the process with `exit(-30)` (exactly when `_val` is a non-`ERROR`
frame with more than 3 `;`-segments).  Before any sample has been decoded it
returns the initial defaults `(0.0, 0, None, None)` rather than "none". -/
theorem claim_C6_amended :
    (∀ s : PState,
      (∃ d c i r, (positionStep s).1 = POut.ret d c i r) ∨
      ((positionStep s).1 = POut.exit (-30) ∧
        ∃ v, s.val = some v ∧ strContains v "ERROR" = false ∧
          3 < (splitSemi v).length)) ∧
    (positionStep initPState).1 = POut.ret 0 0 none none := by
  constructor
  · exact positionStep_ret_or_exit30
  · simp [positionStep, initPState, publish]

/-- Claim C6 (counterexample): a state in which a sample HAS been published
(`_last_data` holds a previously decoded frame), yet `position()` does not
return the most recently published sample — it terminates the process with
`exit(-30)` because the current `_val` splits into more than 3 segments. -/
theorem claim_C6_counterexample :
    (positionStep { initPState with
        val := some ";Index:1;Count:2;Index:3;Count:4",
        lastDeg := 360, lastCount := 8192, lastIndex := some 1,
        lastData := some ";Index:1;Count:8192" }).1 = POut.exit (-30) := by decide

/-- Claim C7 (amended): when `initialize_MDR0` parses an integer `MDR0` value
other than 3 it does NOT surface a structured error to the constructor
caller — it logs and calls `abort()`, which closes the port and terminates
the process directly with `exit(-30)`. -/
theorem claim_C7_amended : ∀ (count : Nat) (raw : String) (rest : List String)
    (k : Int), count + 1 ≠ 150 → strContains (raw.dropRight 2) "MDR0" = true →
    parseIntPy (lastColon (raw.dropRight 2)) = some k → k ≠ 3 →
    initMDR0Loop count (raw :: rest) = MOut.exited (-30) :=
  initMDR0Loop_mismatch

/-- Claim C7 (counterexample): on the response frame `MDR0:4` the embedded
`initialize_MDR0` terminates the process (`exit(-30)` via `abort()`); no
`ProtocolError(BadConfig)` value exists anywhere in the code to be surfaced
to the constructor caller. -/
theorem claim_C7_counterexample :
    initMDR0Loop 0 ["MDR0:4\r\n"] = MOut.exited (-30) := by decide

/-- Claim C7 (witness): amended theorem applied at the frame `MDR0:7`. -/
theorem claim_C7_witness : initMDR0Loop 0 ["MDR0:7\r\n"] = MOut.exited (-30) :=
  claim_C7_amended 0 "MDR0:7\r\n" [] 7 (by decide) (by decide) (by decide) (by decide)

/-- Claim C8 (amended): `clear_encoder` is bounded — its settle loop's result
depends only on the first 149 frames after the initial read (at most 150
reads total) — and as long as every frame's trailing `Count` field parses as
an integer it never raises; but a frame whose trailing field is NOT an
integer makes the uncaught `int(...)` `ValueError` escape `clear_encoder`
(and thus crash session construction), contrary to "never fatal". -/
theorem claim_C8_amended :
    (∀ lines : List String,
      (∀ l ∈ lines, (parseCount (l.dropRight 2)).isSome = true) →
      clearEncoder lines ≠ ClrOut.exc) ∧
    (∀ (lines : List String) (c : Int) (count : Nat), count < 150 →
      clearLoop c count lines = clearLoop c count (lines.take (149 - count))) := by
  constructor
  · intro lines hp
    cases lines with
    | nil => simp [clearEncoder]
    | cons raw rest =>
      have hraw := hp raw (List.mem_cons_self raw rest)
      simp only [clearEncoder]
      cases hc : parseCount (raw.dropRight 2) with
      | none =>
        rw [hc] at hraw
        simp at hraw
      | some c =>
        exact clearLoop_noExc rest c 0 (fun l hl => hp l (List.mem_cons_of_mem _ hl))
  · intro lines c count h
    exact clearLoop_take lines c count h

/-- Claim C8 (counterexample): the single frame `"hello"` (trailing field not
an integer) makes `clear_encoder` raise — the outcome is the uncaught
`ValueError`, a crash escalated to the constructor, not a logged "clear not
confirmed". -/
theorem claim_C8_counterexample : clearEncoder ["hello\r\n"] = ClrOut.exc := by decide

/-- Claim C8 (witness): with integer trailing fields the clear is never
fatal, and the settle loop is insensitive to frames beyond its budget. -/
theorem claim_C8_witness :
    (clearEncoder [";Index:1;Count:5\r\n"] ≠ ClrOut.exc) ∧
    (clearLoop 5000 0 [";Index:0;Count:0\r\n"] =
      clearLoop 5000 0 ([";Index:0;Count:0\r\n"].take 149)) :=
  ⟨claim_C8_amended.1 [";Index:1;Count:5\r\n"] (by decide),
   claim_C8_amended.2 [";Index:0;Count:0\r\n"] 5000 0 (by decide)⟩

/-- Claim C9 (amended): `read_MDR0` and `read_STR` read at most 150 frames,
and the loops do terminate on every stream — but not by reporting a
structured not-found error: exhausting the budget calls `self.close()` and
keeps looping, so the next `readline()` on the closed port raises an
uncaught transport exception that aborts the loop (and initialization). -/
theorem claim_C9_amended :
    ((∀ lines : List String, (readMDR0 lines).2 ≤ 150) ∧
     (∀ lines : List String,
       (∀ l ∈ lines, strContains (l.dropRight 2) "MDR0" = false) →
       150 < lines.length → (readMDR0 lines).1 = ROut.exc)) ∧
    ((∀ lines : List String, (readSTR lines).2 ≤ 150) ∧
     (∀ lines : List String,
       (∀ l ∈ lines, strContains (l.dropRight 2) "STR" = false) →
       150 < lines.length → (readSTR lines).1 = ROut.exc)) := by
  refine ⟨⟨?_, ?_⟩, ?_, ?_⟩
  · intro lines
    simpa [readMDR0] using readMDR0Loop_consumed lines 0 (by omega)
  · intro lines h hl
    exact readMDR0Loop_exhaust lines 0 (by omega) h (by simpa using hl)
  · intro lines
    simpa [readSTR] using readSTRLoop_consumed lines 0 (by omega)
  · intro lines h hl
    exact readSTRLoop_exhaust lines 0 (by omega) h (by simpa using hl)

set_option maxRecDepth 200000

/-- Claim C9 (counterexample): a stream of 151 untagged frames — after
exactly 150 reads the `read_MDR0` loop does not stop with a
`ProtocolError(NotFound)` report; it dies on the next read of the
now-closed port with an uncaught transport exception. -/
theorem claim_C9_counterexample :
    readMDR0 (List.replicate 151 "x\r\n") = (ROut.exc, 150) := by decide

/-- Claim C9 (witness): both bounds and both exhaustion outcomes at a
concrete 151-frame untagged stream. -/
theorem claim_C9_witness :
    ((readMDR0 (List.replicate 151 "y\r\n")).2 ≤ 150 ∧
      (readMDR0 (List.replicate 151 "y\r\n")).1 = ROut.exc) ∧
    ((readSTR (List.replicate 151 "y\r\n")).2 ≤ 150 ∧
      (readSTR (List.replicate 151 "y\r\n")).1 = ROut.exc) :=
  ⟨⟨claim_C9_amended.1.1 (List.replicate 151 "y\r\n"),
    claim_C9_amended.1.2 (List.replicate 151 "y\r\n") (by decide) (by decide)⟩,
   ⟨claim_C9_amended.2.1 (List.replicate 151 "y\r\n"),
    claim_C9_amended.2.2 (List.replicate 151 "y\r\n") (by decide) (by decide)⟩⟩

/-- Claim C10: in `position()`, `self.bad_reads =+ 1` (line 125) ASSIGNS `+1`
rather than incrementing, so `bad_reads` can never reach the shutdown
threshold 10: the `exit(-1)` branch is unreachable from every state, and
every non-`ERROR` frame with too few `;`-separated fields returns the
last-known tuple with `bad_reads` left at 1. -/
theorem claim_C10_badreads_assignment :
    (∀ s : PState, (positionStep s).1 ≠ POut.exit (-1)) ∧
    (∀ (s : PState) (v : String), s.val = some v →
      strContains v "ERROR" = false → (splitSemi v).length = 1 →
      (positionStep s).1 = retLast s ∧ (positionStep s).2.badReads = 1) := by
  constructor
  · intro s
    rcases positionStep_ret_or_exit30 s with ⟨d, c, i, r, h⟩ | ⟨h, _⟩
    · rw [h]
      simp
    · rw [h]
      simp only [ne_eq, POut.exit.injEq]
      omega
  · intro s v h1 h2 h3
    rw [positionStep_short s v h1 h2 (by omega)]
    exact ⟨rfl, rfl⟩

/-- Claim C10 (witness): at the no-semicolon frame `"abc"` the call returns
the last-known tuple, `bad_reads` is 1, and no state exits with code -1. -/
theorem claim_C10_witness :
    ((positionStep { initPState with val := some "abc" }).1 =
        retLast { initPState with val := some "abc" } ∧
      (positionStep { initPState with val := some "abc" }).2.badReads = 1) ∧
    (positionStep { initPState with val := some "abc" }).1 ≠ POut.exit (-1) :=
  ⟨claim_C10_badreads_assignment.2 { initPState with val := some "abc" } "abc"
      rfl (by decide) (by decide),
   claim_C10_badreads_assignment.1 { initPState with val := some "abc" }⟩

end AMT10
